import Mathlib

/-!
Verification of the AlphaCodium workflow core (the LangGraph `StateGraph`
built in the main script) via a shallow embedding in Lean.

The embedding models:
* the run state (`GraphState` annotation root) as `State`, with each channel's
  reducer reproduced in `applyUpdate`;
* the four graph nodes `generateCode`, `generateTestCases`, `rankSolutions`,
  `validateCode` and the conditional edge `retryRouter`;
* the zod schemas (`codeGenSchema`, `testCaseSchema`, `rankSchema`) as parsers
  over a small JSON value type, matching `model.withStructuredOutput(schema)`,
  which either returns a schema-conforming structured value or throws;
* the Completion Gateway (the OpenAI chat model) as an oracle: an arbitrary
  function from the current state to a JSON response or an error, since each
  node's prompt is a pure function of the state;
* the graph's execution order: `START → generate_code → (generate_test_cases
  ∥ rank_solutions) → validate_code → retryRouter`, looping back to
  `generate_code` or ending at `END`.
-/

/-- A candidate solution as produced by `codeGenSchema` / consumed by the
ranker and validator. The third field is the code description; the source
names it with the reserved word for operator declarations, so here it is
`pfx`. -/
structure Candidate where
  code : String
  imports : String
  pfx : String
deriving Repr, DecidableEq

/-- A test case as produced at runtime by `testCaseSchema`:
`{testCode, prefix}`. (The `GraphState` type annotation declares
`generation.testCases` with candidate shape, but the values actually stored
are the schema's parse results.) -/
structure TestCase where
  testCode : String
  pfx : String
deriving Repr, DecidableEq

/-- The `status.success` record written by `validateCode`. Each field is
produced by optional chaining on `bestSolution` (`bestSolution?.code` etc.),
so each may be `undefined`: modelled as `Option String`. -/
structure SuccessStatus where
  code : Option String
  imports : Option String
  pfx : Option String
deriving Repr, DecidableEq

/-- The `status.failure` record. The declared TS type has a mandatory `code`
field, but the record literal `validateCode` actually builds omits it, so the
runtime value's `code` is modelled as `Option String`. -/
structure FailureStatus where
  reason : String
  code : Option String
deriving Repr, DecidableEq

/-- The `status` channel value: `{success?, failure?}`. -/
structure Status where
  success : Option SuccessStatus
  failure : Option FailureStatus
deriving Repr, DecidableEq

/-- The `generation` channel value. A node's partial update may provide only
one of the two arrays (`generateCode` writes only `solutions`,
`generateTestCases` only `testCases`), and the reducer guards each with
`|| []`, so both fields are optional. -/
structure Gen where
  solutions : Option (List Candidate)
  testCases : Option (List TestCase)
deriving Repr, DecidableEq

/-- JSON values, used for the structured outputs of the Completion Gateway
and for the zod-schema parsers. Objects are association lists with distinct
keys (as delivered by `JSON.parse`). -/
inductive Json where
  | str (s : String)
  | num (n : Int)
  | bool (b : Bool)
  | null
  | arr (xs : List Json)
  | obj (fields : List (String × Json))
deriving Repr

/-- Messages on the `messages` channel. An AI message's `content` in the
source is `JSON.stringify` of a structured payload; the payload itself is
stored here. -/
inductive Message where
  | human (content : String)
  | ai (name : String) (content : Json)
deriving Repr

/-- The run state: one field per channel of `GraphState`. -/
structure State where
  messages : List Message
  userQuery : String
  status : Option Status
  generation : Option Gen
  bestSolution : Option Candidate
  iterations : Nat
  reflections : List String
deriving Repr

/-- A partial state update as returned by a node (or passed to `invoke`):
only the channels present are merged, each through its reducer. For the
nullable channels `generation` and `bestSolution` the outer `Option` is
channel presence and the inner one is the written value. -/
structure PartialUpdate where
  messages : Option (List Message) := none
  userQuery : Option String := none
  status : Option Status := none
  generation : Option (Option Gen) := none
  bestSolution : Option (Option Candidate) := none
  iterations : Option Nat := none
  reflections : Option (List String) := none
deriving Repr

/-- The reducer of the `generation` channel (lines 42–50 of the source):
`null` on either side yields the other side; otherwise concatenate each
array, treating a missing array as `[]`. -/
def genReducer : Option Gen → Option Gen → Option Gen
  | none, next => next
  | some p, none => some p
  | some p, some n =>
      some ⟨some ((p.solutions.getD []) ++ (n.solutions.getD [])),
            some ((p.testCases.getD []) ++ (n.testCases.getD []))⟩

/-- Merge a partial update into the state, channel by channel:
concatenation for `messages` and `reflections`, last-value overwrite for
`userQuery`, `status` and `bestSolution`, `genReducer` for `generation`,
and sum for `iterations`. -/
def applyUpdate (s : State) (u : PartialUpdate) : State where
  messages := match u.messages with
    | none => s.messages
    | some m => s.messages ++ m
  userQuery := match u.userQuery with
    | none => s.userQuery
    | some q => q
  status := match u.status with
    | none => s.status
    | some st => some st
  generation := match u.generation with
    | none => s.generation
    | some g => genReducer s.generation g
  bestSolution := match u.bestSolution with
    | none => s.bestSolution
    | some b => b
  iterations := match u.iterations with
    | none => s.iterations
    | some i => s.iterations + i
  reflections := match u.reflections with
    | none => s.reflections
    | some r => s.reflections ++ r

/-- Look up a key in a JSON object's field list. -/
def lookupField : List (String × Json) → String → Option Json
  | [], _ => none
  | (k, v) :: rest, key => if k = key then some v else lookupField rest key

/-- `z.array(σ)`: parse every element, failing on the first non-conforming
one. -/
def parseAll {α : Type} (f : Json → Except String α) :
    List Json → Except String (List α)
  | [] => Except.ok []
  | x :: xs =>
      match f x with
      | Except.error e => Except.error e
      | Except.ok y =>
          match parseAll f xs with
          | Except.error e => Except.error e
          | Except.ok ys => Except.ok (y :: ys)

/-- `z.string()` applied to the value of a mandatory object field. -/
def parseStringField (fields : List (String × Json)) (key : String) :
    Except String String :=
  match lookupField fields key with
  | some (Json.str s) => Except.ok s
  | _ => Except.error "invalid string field"

/-- The candidate object schema shared by `codeGenSchema.solutions`
entries and `rankSchema.bestSolution`. -/
def parseCandidate : Json → Except String Candidate
  | Json.obj fields =>
      match parseStringField fields "code" with
      | Except.error e => Except.error e
      | Except.ok c =>
          match parseStringField fields "imports" with
          | Except.error e => Except.error e
          | Except.ok i =>
              match parseStringField fields "prefix" with
              | Except.error e => Except.error e
              | Except.ok p => Except.ok ⟨c, i, p⟩
  | _ => Except.error "expected object"

/-- One entry of `testCaseSchema.testCases`: `{testCode, prefix}`. -/
def parseTestCase : Json → Except String TestCase
  | Json.obj fields =>
      match parseStringField fields "testCode" with
      | Except.error e => Except.error e
      | Except.ok t =>
          match parseStringField fields "prefix" with
          | Except.error e => Except.error e
          | Except.ok p => Except.ok ⟨t, p⟩
  | _ => Except.error "expected object"

/-- `codeGenSchema`: an object with a `solutions` array of candidates.
Returns the `solutions` field, as used by `generateCode`. -/
def parseCodeGenSchema : Json → Except String (List Candidate)
  | Json.obj fields =>
      match lookupField fields "solutions" with
      | some (Json.arr xs) => parseAll parseCandidate xs
      | _ => Except.error "invalid solutions array"
  | _ => Except.error "expected object"

/-- `testCaseSchema`: an object with a `testCases` array. Returns the
`testCases` field, as used by `generateTestCases`. -/
def parseTestCaseSchema : Json → Except String (List TestCase)
  | Json.obj fields =>
      match lookupField fields "testCases" with
      | some (Json.arr xs) => parseAll parseTestCase xs
      | _ => Except.error "invalid testCases array"
  | _ => Except.error "expected object"

/-- `rankSchema`: an object with a `bestSolution` candidate. Returns the
`bestSolution` field, as used by `rankSolutions`. -/
def parseRankSchema : Json → Except String Candidate
  | Json.obj fields =>
      match lookupField fields "bestSolution" with
      | some j => parseCandidate j
      | none => Except.error "missing bestSolution"
  | _ => Except.error "expected object"

/-- Serialize a candidate back to JSON (for the logged AI message whose
content is `JSON.stringify({solutions})`). -/
def encodeCandidate (c : Candidate) : Json :=
  Json.obj [("code", Json.str c.code), ("imports", Json.str c.imports),
            ("prefix", Json.str c.pfx)]

/-- Serialize a test case back to JSON (for the logged AI message whose
content is `JSON.stringify({testCases})`). -/
def encodeTestCase (tc : TestCase) : Json :=
  Json.obj [("testCode", Json.str tc.testCode), ("prefix", Json.str tc.pfx)]

/-- Errors that abort a run: a thrown Completion Gateway call, a response
not conforming to the requested schema, the JS `TypeError` that reading
`status.failure` of an undefined `status` would raise, and exhaustion of
the executor's fuel (a modelling artefact, proved unreachable in actual
runs). -/
inductive RunError where
  | gateway (e : String)
  | schema (e : String)
  | jsTypeError
  | outOfFuel
deriving Repr, DecidableEq

/-- The Completion Gateway: each node's `model.withStructuredOutput(σ)
.invoke([...])` call, abstracted as a function of the node's input state
(each prompt is a pure function of that state) returning raw JSON or a
thrown error. -/
structure Oracle where
  genCode : State → Except String Json
  genTests : State → Except String Json
  rank : State → Except String Json

/-- The partial update returned by `generateCode` (lines 105–118):
`{generation: {solutions}, iterations: 1, messages: [AIMessage]}`. -/
def mkGenUpdate (sols : List Candidate) : PartialUpdate where
  generation := some (some ⟨some sols, none⟩)
  iterations := some 1
  messages := some [Message.ai "code_generation"
    (Json.obj [("solutions", Json.arr (sols.map encodeCandidate))])]

/-- The partial update returned by `generateTestCases` (lines 143–155):
`{generation: {testCases}, messages: [AIMessage]}`. -/
def mkTestUpdate (tcs : List TestCase) : PartialUpdate where
  generation := some (some ⟨none, some tcs⟩)
  messages := some [Message.ai "test_case_generation"
    (Json.obj [("testCases", Json.arr (tcs.map encodeTestCase))])]

/-- The partial update returned by `rankSolutions` (lines 176–178):
`{bestSolution}`. -/
def mkRankUpdate (best : Candidate) : PartialUpdate where
  bestSolution := some (some best)

/-- Node `generate_code`: call the gateway with the code-generation prompt,
parse via `codeGenSchema`, and return the partial update. -/
def generateCode (o : Oracle) (s : State) : Except RunError PartialUpdate :=
  match o.genCode s with
  | Except.error e => Except.error (RunError.gateway e)
  | Except.ok j =>
      match parseCodeGenSchema j with
      | Except.error e => Except.error (RunError.schema e)
      | Except.ok sols => Except.ok (mkGenUpdate sols)

/-- Node `generate_test_cases`: call the gateway with the test-case prompt,
parse via `testCaseSchema`, and return the partial update. -/
def generateTestCases (o : Oracle) (s : State) :
    Except RunError PartialUpdate :=
  match o.genTests s with
  | Except.error e => Except.error (RunError.gateway e)
  | Except.ok j =>
      match parseTestCaseSchema j with
      | Except.error e => Except.error (RunError.schema e)
      | Except.ok tcs => Except.ok (mkTestUpdate tcs)

/-- Node `rank_solutions`: call the gateway with the evaluation prompt
(which embeds `generation?.solutions`), parse via `rankSchema`, and return
the partial update overwriting `bestSolution`. -/
def rankSolutions (o : Oracle) (s : State) : Except RunError PartialUpdate :=
  match o.rank s with
  | Except.error e => Except.error (RunError.gateway e)
  | Except.ok j =>
      match parseRankSchema j with
      | Except.error e => Except.error (RunError.schema e)
      | Except.ok best => Except.ok (mkRankUpdate best)

/-- Node `validate_code` (lines 191–223), with the hardcoded
`const isValid = true` abstracted into a parameter so both branches of the
source are represented. The success record copies `bestSolution?.code`,
`bestSolution?.imports`, `bestSolution?.prefix`; the failure record literal
contains only `reason` (no `code` field). -/
def validateCodeWith (isValid : Bool) (s : State) : PartialUpdate :=
  if isValid then
    { status := some ⟨some ⟨s.bestSolution.map Candidate.code,
        s.bestSolution.map Candidate.imports,
        s.bestSolution.map Candidate.pfx⟩, none⟩ }
  else
    { status := some ⟨none, some ⟨"The code is not valid", none⟩⟩ }

/-- Node `validate_code` exactly as in the source: `isValid` is the
constant `true`. -/
def validateCode (s : State) : PartialUpdate := validateCodeWith true s

/-- JS truthiness of `failure?.reason : string | undefined`: `undefined`
and the empty string are falsy. -/
def strTruthy : Option String → Bool
  | none => false
  | some s => !(s == "")

/-- The router's two targets. -/
inductive Route where
  | END
  | call_model
deriving Repr, DecidableEq

/-- The conditional edge `retryRouter` (lines 181–189): END when
`!state.status.failure?.reason || state.iterations >= 3`, else back to the
generator. Reading `.failure` of an undefined `status` would throw. -/
def retryRouter (s : State) : Except RunError Route :=
  match s.status with
  | none => Except.error RunError.jsTypeError
  | some st =>
      if strTruthy (st.failure.map FailureStatus.reason) = false
          ∨ 3 ≤ s.iterations then
        Except.ok Route.END
      else
        Except.ok Route.call_model

/-- Node names, for execution traces. -/
inductive NodeTag where
  | generate_code
  | generate_test_cases
  | rank_solutions
  | validate_code
deriving Repr, DecidableEq

/-- One pass of the graph body: `generate_code`, then the two parallel
branches `generate_test_cases` and `rank_solutions` reading the same
post-generator state and merged through the reducers, then
`validate_code`. Returns the trace of nodes started, and either the merged
state after validation or the first propagated error. On error, the state
carried is the last fully merged one. -/
def runStep (o : Oracle) (s : State) :
    List NodeTag × State × Except RunError State :=
  match generateCode o s with
  | Except.error e => ([NodeTag.generate_code], s, Except.error e)
  | Except.ok u1 =>
      let s1 := applyUpdate s u1
      match generateTestCases o s1 with
      | Except.error e =>
          ([NodeTag.generate_code, NodeTag.generate_test_cases], s1,
           Except.error e)
      | Except.ok u2 =>
          match rankSolutions o s1 with
          | Except.error e =>
              ([NodeTag.generate_code, NodeTag.generate_test_cases,
                NodeTag.rank_solutions], s1, Except.error e)
          | Except.ok u3 =>
              let s2 := applyUpdate (applyUpdate s1 u2) u3
              let s3 := applyUpdate s2 (validateCode s2)
              ([NodeTag.generate_code, NodeTag.generate_test_cases,
                NodeTag.rank_solutions, NodeTag.validate_code], s3,
               Except.ok s3)

/-- Result of a run: the trace of node executions, the last merged state,
and the error that aborted the run, if any. -/
structure RunResult where
  trace : List NodeTag
  finalState : State
  error : Option RunError
deriving Repr

/-- The compiled graph's loop: run one pass, then follow `retryRouter`;
`call_model` loops back to `generate_code`. `fuel` bounds the recursion
(four is enough for every run started by `main`; see
`runFromInit_no_fuel_exhaustion`). -/
def runLoop (o : Oracle) : Nat → State → RunResult
  | 0, s => ⟨[], s, some RunError.outOfFuel⟩
  | fuel + 1, s =>
      match runStep o s with
      | (ptr, sErr, Except.error e) => ⟨ptr, sErr, some e⟩
      | (ptr, _, Except.ok s') =>
          match retryRouter s' with
          | Except.error e => ⟨ptr, s', some e⟩
          | Except.ok Route.END => ⟨ptr, s', none⟩
          | Except.ok Route.call_model =>
              let r := runLoop o fuel s'
              ⟨ptr ++ r.trace, r.finalState, r.error⟩

/-- The state before `invoke` merges the input: channel defaults
(`iterations` 0, `reflections` `[]`, empty collections). -/
def emptyState : State :=
  ⟨[], "", none, none, none, 0, []⟩

/-- The input object `main` passes to `compiledGraph.invoke` (lines
242–247). -/
def mainInput : PartialUpdate where
  messages := some [Message.human "write a function to add two numbers"]
  userQuery := some "write a function to add two numbers"
  iterations := some 0
  generation := some none

/-- The initial run state: `main`'s input merged into the defaults. -/
def initState : State := applyUpdate emptyState mainInput

/-- A full run as `main` performs it. -/
def run (o : Oracle) : RunResult := runLoop o 4 initState

/-- `generation?.solutions` seen as a list (`undefined` reads as empty). -/
def solutionsOf (s : State) : List Candidate :=
  match s.generation with
  | none => []
  | some g => g.solutions.getD []

/-- `generation?.testCases` seen as a list (`undefined` reads as empty). -/
def testCasesOf (s : State) : List TestCase :=
  match s.generation with
  | none => []
  | some g => g.testCases.getD []

/-- `xs` grows into `ys`: `ys` is `xs` with new items appended after all
existing ones; nothing removed or replaced. -/
def ListGrows {α : Type} (xs ys : List α) : Prop := ∃ t, ys = xs ++ t

/-- The merged state after one successful pass of the graph body, given the
parsed gateway responses: generator update, then the two parallel branch
updates, then validation. -/
def stepState (s : State) (sols : List Candidate) (tcs : List TestCase)
    (best : Candidate) : State :=
  let s1 := applyUpdate s (mkGenUpdate sols)
  let s2 := applyUpdate (applyUpdate s1 (mkTestUpdate tcs)) (mkRankUpdate best)
  applyUpdate s2 (validateCode s2)

/-- A JSON value that `testCaseSchema`'s element schema accepted, and the
record parsed from it: an object whose `testCode` and `prefix` fields are
strings, copied verbatim into the record. -/
def jsonTestCaseShape (jx : Json) (tc : TestCase) : Prop :=
  ∃ fields, jx = Json.obj fields ∧
    lookupField fields "testCode" = some (Json.str tc.testCode) ∧
    lookupField fields "prefix" = some (Json.str tc.pfx)

/-! ### Concrete sample data for witnesses and counterexamples -/

/-- A sample candidate, as the gateway could return for the hardcoded
query. -/
def sampleCandidate : Candidate :=
  ⟨"const add = (a: number, b: number): number => a + b", "",
   "adds two numbers"⟩

/-- A sample test case, as the gateway could return. -/
def sampleTestCase : TestCase :=
  ⟨"expect(add(1, 2)).toBe(3)", "basic addition"⟩

/-- A well-behaved gateway: every call returns a schema-conforming
response. -/
def okOracle : Oracle where
  genCode := fun _ => Except.ok
    (Json.obj [("solutions", Json.arr [encodeCandidate sampleCandidate])])
  genTests := fun _ => Except.ok
    (Json.obj [("testCases", Json.arr [encodeTestCase sampleTestCase])])
  rank := fun _ => Except.ok
    (Json.obj [("bestSolution", encodeCandidate sampleCandidate)])

/-- A candidate that no generator call ever produced. -/
def otherCandidate : Candidate :=
  ⟨"function add(a, b) { return Number(a) + Number(b) }", "",
   "never generated by the solution generator"⟩

/-- A gateway whose rank call returns a candidate outside the generated
pool (nothing in the schema or the node prevents this). -/
def c6Oracle : Oracle where
  genCode := okOracle.genCode
  genTests := okOracle.genTests
  rank := fun _ => Except.ok
    (Json.obj [("bestSolution", encodeCandidate otherCandidate)])

/-- A gateway that throws on every Test-Case Generator call. -/
def c7Oracle : Oracle where
  genCode := okOracle.genCode
  genTests := fun _ => Except.error "gateway unreachable"
  rank := okOracle.rank

/-- A state whose status carries a failure record with an empty reason
string, with iterations below the ceiling. -/
def c1CexState : State :=
  ⟨[], "", some ⟨none, some ⟨"", none⟩⟩, none, none, 0, []⟩

/-- A state with a ranked best solution present. -/
def c3State : State :=
  ⟨[], "write a function to add two numbers", none,
   some ⟨some [sampleCandidate], some [sampleTestCase]⟩,
   some sampleCandidate, 1, []⟩

/-! ### Inversion lemmas for the node functions -/

theorem generateCode_ok_inv {o : Oracle} {s : State} {u : PartialUpdate}
    (h : generateCode o s = Except.ok u) :
    ∃ j sols, o.genCode s = Except.ok j ∧
      parseCodeGenSchema j = Except.ok sols ∧ u = mkGenUpdate sols := by
  cases hg : o.genCode s with
  | error e => simp [generateCode, hg] at h
  | ok j =>
      cases hp : parseCodeGenSchema j with
      | error e => simp [generateCode, hg, hp] at h
      | ok sols =>
          simp only [generateCode, hg, hp, Except.ok.injEq] at h
          exact ⟨j, sols, rfl, hp, h.symm⟩

theorem generateTestCases_ok_inv {o : Oracle} {s : State} {u : PartialUpdate}
    (h : generateTestCases o s = Except.ok u) :
    ∃ j tcs, o.genTests s = Except.ok j ∧
      parseTestCaseSchema j = Except.ok tcs ∧ u = mkTestUpdate tcs := by
  cases hg : o.genTests s with
  | error e => simp [generateTestCases, hg] at h
  | ok j =>
      cases hp : parseTestCaseSchema j with
      | error e => simp [generateTestCases, hg, hp] at h
      | ok tcs =>
          simp only [generateTestCases, hg, hp, Except.ok.injEq] at h
          exact ⟨j, tcs, rfl, hp, h.symm⟩

theorem rankSolutions_ok_inv {o : Oracle} {s : State} {u : PartialUpdate}
    (h : rankSolutions o s = Except.ok u) :
    ∃ j best, o.rank s = Except.ok j ∧
      parseRankSchema j = Except.ok best ∧ u = mkRankUpdate best := by
  cases hg : o.rank s with
  | error e => simp [rankSolutions, hg] at h
  | ok j =>
      cases hp : parseRankSchema j with
      | error e => simp [rankSolutions, hg, hp] at h
      | ok best =>
          simp only [rankSolutions, hg, hp, Except.ok.injEq] at h
          exact ⟨j, best, rfl, hp, h.symm⟩

theorem generateCode_error_inv {o : Oracle} {s : State} {e : RunError}
    (h : generateCode o s = Except.error e) :
    ∃ msg, e = RunError.gateway msg ∨ e = RunError.schema msg := by
  cases hg : o.genCode s with
  | error m =>
      simp only [generateCode, hg, Except.error.injEq] at h
      exact ⟨m, Or.inl h.symm⟩
  | ok j =>
      cases hp : parseCodeGenSchema j with
      | error m =>
          simp only [generateCode, hg, hp, Except.error.injEq] at h
          exact ⟨m, Or.inr h.symm⟩
      | ok sols => simp [generateCode, hg, hp] at h

theorem generateTestCases_error_inv {o : Oracle} {s : State} {e : RunError}
    (h : generateTestCases o s = Except.error e) :
    ∃ msg, e = RunError.gateway msg ∨ e = RunError.schema msg := by
  cases hg : o.genTests s with
  | error m =>
      simp only [generateTestCases, hg, Except.error.injEq] at h
      exact ⟨m, Or.inl h.symm⟩
  | ok j =>
      cases hp : parseTestCaseSchema j with
      | error m =>
          simp only [generateTestCases, hg, hp, Except.error.injEq] at h
          exact ⟨m, Or.inr h.symm⟩
      | ok tcs => simp [generateTestCases, hg, hp] at h

theorem rankSolutions_error_inv {o : Oracle} {s : State} {e : RunError}
    (h : rankSolutions o s = Except.error e) :
    ∃ msg, e = RunError.gateway msg ∨ e = RunError.schema msg := by
  cases hg : o.rank s with
  | error m =>
      simp only [rankSolutions, hg, Except.error.injEq] at h
      exact ⟨m, Or.inl h.symm⟩
  | ok j =>
      cases hp : parseRankSchema j with
      | error m =>
          simp only [rankSolutions, hg, hp, Except.error.injEq] at h
          exact ⟨m, Or.inr h.symm⟩
      | ok best => simp [rankSolutions, hg, hp] at h

/-! ### The state produced by one successful pass -/

theorem runStep_ok_inv {o : Oracle} {s : State} {tr : List NodeTag}
    {sc s' : State} (h : runStep o s = (tr, sc, Except.ok s')) :
    ∃ sols tcs best,
      generateCode o s = Except.ok (mkGenUpdate sols) ∧
      generateTestCases o (applyUpdate s (mkGenUpdate sols)) =
        Except.ok (mkTestUpdate tcs) ∧
      rankSolutions o (applyUpdate s (mkGenUpdate sols)) =
        Except.ok (mkRankUpdate best) ∧
      tr = [NodeTag.generate_code, NodeTag.generate_test_cases,
            NodeTag.rank_solutions, NodeTag.validate_code] ∧
      s' = stepState s sols tcs best ∧ sc = s' := by
  cases hg : generateCode o s with
  | error e => simp [runStep, hg] at h
  | ok u1 =>
      obtain ⟨j1, sols, _, _, hu1⟩ := generateCode_ok_inv hg
      subst hu1
      cases ht : generateTestCases o (applyUpdate s (mkGenUpdate sols)) with
      | error e => simp [runStep, hg, ht] at h
      | ok u2 =>
          obtain ⟨j2, tcs, _, _, hu2⟩ := generateTestCases_ok_inv ht
          subst hu2
          cases hr : rankSolutions o (applyUpdate s (mkGenUpdate sols)) with
          | error e => simp [runStep, hg, ht, hr] at h
          | ok u3 =>
              obtain ⟨j3, best, _, _, hu3⟩ := rankSolutions_ok_inv hr
              subst hu3
              simp only [runStep, hg, ht, hr, Prod.mk.injEq,
                Except.ok.injEq] at h
              obtain ⟨htr, hsc, hs'⟩ := h
              exact ⟨sols, tcs, best, rfl, ht, hr, htr.symm, hs'.symm,
                hsc.symm.trans hs'⟩

theorem runStep_error_inv {o : Oracle} {s : State} {tr : List NodeTag}
    {sc : State} {e : RunError}
    (h : runStep o s = (tr, sc, Except.error e)) :
    (sc = s ∨ ∃ sols, sc = applyUpdate s (mkGenUpdate sols)) ∧
      (∃ msg, e = RunError.gateway msg ∨ e = RunError.schema msg) := by
  cases hg : generateCode o s with
  | error e' =>
      simp only [runStep, hg, Prod.mk.injEq, Except.error.injEq] at h
      exact ⟨Or.inl h.2.1.symm, h.2.2 ▸ generateCode_error_inv hg⟩
  | ok u1 =>
      obtain ⟨j1, sols, _, _, hu1⟩ := generateCode_ok_inv hg
      subst hu1
      cases ht : generateTestCases o (applyUpdate s (mkGenUpdate sols)) with
      | error e' =>
          simp only [runStep, hg, ht, Prod.mk.injEq, Except.error.injEq] at h
          exact ⟨Or.inr ⟨sols, h.2.1.symm⟩,
            h.2.2 ▸ generateTestCases_error_inv ht⟩
      | ok u2 =>
          cases hr : rankSolutions o (applyUpdate s (mkGenUpdate sols)) with
          | error e' =>
              simp only [runStep, hg, ht, hr, Prod.mk.injEq,
                Except.error.injEq] at h
              exact ⟨Or.inr ⟨sols, h.2.1.symm⟩,
                h.2.2 ▸ rankSolutions_error_inv hr⟩
          | ok u3 => simp [runStep, hg, ht, hr] at h

/-! ### Effects of the individual partial updates on the generation pool -/

theorem applyGen_solutionsOf (s : State) (sols : List Candidate) :
    solutionsOf (applyUpdate s (mkGenUpdate sols)) = solutionsOf s ++ sols := by
  cases hg : s.generation with
  | none => simp [solutionsOf, applyUpdate, mkGenUpdate, genReducer, hg]
  | some p => simp [solutionsOf, applyUpdate, mkGenUpdate, genReducer, hg]

theorem applyGen_testCasesOf (s : State) (sols : List Candidate) :
    testCasesOf (applyUpdate s (mkGenUpdate sols)) = testCasesOf s := by
  cases hg : s.generation with
  | none => simp [testCasesOf, applyUpdate, mkGenUpdate, genReducer, hg]
  | some p => simp [testCasesOf, applyUpdate, mkGenUpdate, genReducer, hg]

theorem applyTest_solutionsOf (s : State) (tcs : List TestCase) :
    solutionsOf (applyUpdate s (mkTestUpdate tcs)) = solutionsOf s := by
  cases hg : s.generation with
  | none => simp [solutionsOf, applyUpdate, mkTestUpdate, genReducer, hg]
  | some p => simp [solutionsOf, applyUpdate, mkTestUpdate, genReducer, hg]

theorem applyTest_testCasesOf (s : State) (tcs : List TestCase) :
    testCasesOf (applyUpdate s (mkTestUpdate tcs)) = testCasesOf s ++ tcs := by
  cases hg : s.generation with
  | none => simp [testCasesOf, applyUpdate, mkTestUpdate, genReducer, hg]
  | some p => simp [testCasesOf, applyUpdate, mkTestUpdate, genReducer, hg]

theorem applyRank_generation (s : State) (best : Candidate) :
    (applyUpdate s (mkRankUpdate best)).generation = s.generation := rfl

theorem applyValidate_generation (s s' : State) (b : Bool) :
    (applyUpdate s (validateCodeWith b s')).generation = s.generation := by
  cases b <;> rfl

/-! ### Effects of one successful pass -/

theorem stepState_iterations (s : State) (sols : List Candidate)
    (tcs : List TestCase) (best : Candidate) :
    (stepState s sols tcs best).iterations = s.iterations + 1 := rfl

theorem stepState_bestSolution (s : State) (sols : List Candidate)
    (tcs : List TestCase) (best : Candidate) :
    (stepState s sols tcs best).bestSolution = some best := rfl

theorem stepState_status (s : State) (sols : List Candidate)
    (tcs : List TestCase) (best : Candidate) :
    (stepState s sols tcs best).status =
      some ⟨some ⟨some best.code, some best.imports, some best.pfx⟩,
            none⟩ := rfl

theorem stepState_solutionsOf (s : State) (sols : List Candidate)
    (tcs : List TestCase) (best : Candidate) :
    solutionsOf (stepState s sols tcs best) = solutionsOf s ++ sols := by
  show solutionsOf (applyUpdate _ (validateCode _)) = _
  rw [validateCode]
  unfold solutionsOf
  rw [applyValidate_generation]
  show solutionsOf (applyUpdate (applyUpdate (applyUpdate s (mkGenUpdate sols))
    (mkTestUpdate tcs)) (mkRankUpdate best)) = _
  unfold solutionsOf
  rw [applyRank_generation]
  show solutionsOf (applyUpdate (applyUpdate s (mkGenUpdate sols))
    (mkTestUpdate tcs)) = _
  rw [applyTest_solutionsOf, applyGen_solutionsOf]
  rfl

theorem stepState_testCasesOf (s : State) (sols : List Candidate)
    (tcs : List TestCase) (best : Candidate) :
    testCasesOf (stepState s sols tcs best) = testCasesOf s ++ tcs := by
  show testCasesOf (applyUpdate _ (validateCode _)) = _
  rw [validateCode]
  unfold testCasesOf
  rw [applyValidate_generation]
  show testCasesOf (applyUpdate (applyUpdate (applyUpdate s (mkGenUpdate sols))
    (mkTestUpdate tcs)) (mkRankUpdate best)) = _
  unfold testCasesOf
  rw [applyRank_generation]
  show testCasesOf (applyUpdate (applyUpdate s (mkGenUpdate sols))
    (mkTestUpdate tcs)) = _
  rw [applyTest_testCasesOf, applyGen_testCasesOf]
  rfl

/-- After a successful pass the validator has just written a success status
with no failure, so the router always sends the run to END. -/
theorem retryRouter_after_step (s : State) (sols : List Candidate)
    (tcs : List TestCase) (best : Candidate) :
    retryRouter (stepState s sols tcs best) = Except.ok Route.END := by
  rw [retryRouter, stepState_status]
  simp [strTruthy]

/-! ### Run-level characterization -/

/-- A run that completes without an error performed exactly one pass of the
graph body: the validator's stubbed success status makes the router take
the END edge the first time it is consulted. -/
theorem runLoop_ok_inv {o : Oracle} {fuel : Nat} {s : State} {r : RunResult}
    (h : runLoop o (fuel + 1) s = r) (he : r.error = none) :
    ∃ sols tcs best,
      generateCode o s = Except.ok (mkGenUpdate sols) ∧
      generateTestCases o (applyUpdate s (mkGenUpdate sols)) =
        Except.ok (mkTestUpdate tcs) ∧
      rankSolutions o (applyUpdate s (mkGenUpdate sols)) =
        Except.ok (mkRankUpdate best) ∧
      r.trace = [NodeTag.generate_code, NodeTag.generate_test_cases,
                 NodeTag.rank_solutions, NodeTag.validate_code] ∧
      r.finalState = stepState s sols tcs best := by
  rcases hrs : runStep o s with ⟨ptr, sc, res⟩
  cases res with
  | error e =>
      simp only [runLoop, hrs] at h
      rw [← h] at he
      simp at he
  | ok s' =>
      obtain ⟨sols, tcs, best, hgen, htest, hrank, htr, hs', -⟩ :=
        runStep_ok_inv hrs
      subst hs'
      simp only [runLoop, hrs, retryRouter_after_step] at h
      exact ⟨sols, tcs, best, hgen, htest, hrank,
        by rw [← h]; exact htr, by rw [← h]⟩

/-- Growth of the two pooled lists over a whole (possibly aborted) run. -/
theorem runLoop_grows (o : Oracle) (fuel : Nat) (s : State) :
    ListGrows (solutionsOf s) (solutionsOf (runLoop o fuel s).finalState) ∧
    ListGrows (testCasesOf s) (testCasesOf (runLoop o fuel s).finalState) := by
  induction fuel generalizing s with
  | zero => exact ⟨⟨[], by simp [runLoop]⟩, ⟨[], by simp [runLoop]⟩⟩
  | succ fuel ih =>
      rcases hrs : runStep o s with ⟨ptr, sc, res⟩
      cases res with
      | error e =>
          obtain ⟨hsc, -⟩ := runStep_error_inv hrs
          simp only [runLoop, hrs]
          rcases hsc with rfl | ⟨sols, rfl⟩
          · exact ⟨⟨[], by simp⟩, ⟨[], by simp⟩⟩
          · exact ⟨⟨sols, applyGen_solutionsOf s sols⟩,
              ⟨[], by simp [applyGen_testCasesOf]⟩⟩
      | ok s' =>
          obtain ⟨sols, tcs, best, -, -, -, -, hs', -⟩ := runStep_ok_inv hrs
          subst hs'
          simp only [runLoop, hrs, retryRouter_after_step]
          exact ⟨⟨sols, stepState_solutionsOf s sols tcs best⟩,
            ⟨tcs, stepState_testCasesOf s sols tcs best⟩⟩

/-- Classification of how a run from `main`'s initial state can end: either
without error, or with a propagated gateway / schema-conformance error.
In particular the executor's fuel bound is never the reason a run stops,
and the router never sees an undefined `status`. -/
theorem run_error_classification (o : Oracle) :
    (run o).error = none ∨
      ∃ msg, (run o).error = some (RunError.gateway msg) ∨
        (run o).error = some (RunError.schema msg) := by
  rcases hrs : runStep o initState with ⟨ptr, sc, res⟩
  cases res with
  | error e =>
      obtain ⟨-, msg, hmsg⟩ := runStep_error_inv hrs
      right
      refine ⟨msg, ?_⟩
      show (runLoop o (3 + 1) initState).error = _ ∨
        (runLoop o (3 + 1) initState).error = _
      simp only [runLoop, hrs]
      rcases hmsg with rfl | rfl
      · exact Or.inl rfl
      · exact Or.inr rfl
  | ok s' =>
      obtain ⟨sols, tcs, best, -, -, -, -, hs', -⟩ := runStep_ok_inv hrs
      subst hs'
      left
      show (runLoop o (3 + 1) initState).error = none
      simp only [runLoop, hrs, retryRouter_after_step]

/-! ### Shape of schema-conforming gateway responses -/

theorem parseStringField_ok_inv {fields : List (String × Json)} {k v : String}
    (h : parseStringField fields k = Except.ok v) :
    lookupField fields k = some (Json.str v) := by
  cases hl : lookupField fields k with
  | none => simp [parseStringField, hl] at h
  | some j =>
      cases j with
      | str s =>
          simp only [parseStringField, hl, Except.ok.injEq] at h
          rw [h]
      | num n => simp [parseStringField, hl] at h
      | bool b => simp [parseStringField, hl] at h
      | null => simp [parseStringField, hl] at h
      | arr xs => simp [parseStringField, hl] at h
      | obj fs => simp [parseStringField, hl] at h

theorem parseTestCase_ok_shape {j : Json} {tc : TestCase}
    (h : parseTestCase j = Except.ok tc) : jsonTestCaseShape j tc := by
  cases j with
  | str s => simp [parseTestCase] at h
  | num n => simp [parseTestCase] at h
  | bool b => simp [parseTestCase] at h
  | null => simp [parseTestCase] at h
  | arr xs => simp [parseTestCase] at h
  | obj fields =>
      cases ht : parseStringField fields "testCode" with
      | error e => simp [parseTestCase, ht] at h
      | ok t =>
          cases hp : parseStringField fields "prefix" with
          | error e => simp [parseTestCase, ht, hp] at h
          | ok p =>
              simp only [parseTestCase, ht, hp, Except.ok.injEq] at h
              exact ⟨fields, rfl, h ▸ parseStringField_ok_inv ht,
                h ▸ parseStringField_ok_inv hp⟩

theorem parseAll_ok_forall {α : Type} {f : Json → Except String α}
    {xs : List Json} {ys : List α} (h : parseAll f xs = Except.ok ys) :
    List.Forall₂ (fun x y => f x = Except.ok y) xs ys := by
  induction xs generalizing ys with
  | nil =>
      simp only [parseAll, Except.ok.injEq] at h
      rw [← h]
      exact List.Forall₂.nil
  | cons x xs ih =>
      cases hf : f x with
      | error e => simp [parseAll, hf] at h
      | ok y =>
          cases hr : parseAll f xs with
          | error e => simp [parseAll, hf, hr] at h
          | ok ys' =>
              simp only [parseAll, hf, hr, Except.ok.injEq] at h
              rw [← h]
              exact List.Forall₂.cons hf (ih hr)

theorem parseTestCaseSchema_ok_inv {j : Json} {tcs : List TestCase}
    (h : parseTestCaseSchema j = Except.ok tcs) :
    ∃ fields xs, j = Json.obj fields ∧
      lookupField fields "testCases" = some (Json.arr xs) ∧
      List.Forall₂ jsonTestCaseShape xs tcs := by
  cases j with
  | str s => simp [parseTestCaseSchema] at h
  | num n => simp [parseTestCaseSchema] at h
  | bool b => simp [parseTestCaseSchema] at h
  | null => simp [parseTestCaseSchema] at h
  | arr xs => simp [parseTestCaseSchema] at h
  | obj fields =>
      cases hl : lookupField fields "testCases" with
      | none => simp [parseTestCaseSchema, hl] at h
      | some jv =>
          cases jv with
          | str s => simp [parseTestCaseSchema, hl] at h
          | num n => simp [parseTestCaseSchema, hl] at h
          | bool b => simp [parseTestCaseSchema, hl] at h
          | null => simp [parseTestCaseSchema, hl] at h
          | obj fs => simp [parseTestCaseSchema, hl] at h
          | arr xs =>
              simp only [parseTestCaseSchema, hl] at h
              exact ⟨fields, xs, rfl, hl,
                List.Forall₂.imp (fun _ _ hx => parseTestCase_ok_shape hx)
                  (parseAll_ok_forall h)⟩

/-! ### Claims -/

/-- C1 counterexample: at a state whose `status.failure` IS set (with an
empty `reason` string) and whose `iterations` is below 3, the retry router
transitions to DONE — refuting "in every other case (status.failure set and
iterations < 3) it transitions back to the Solution Generator, never to
DONE": the code tests the truthiness of `failure?.reason`, not whether
`failure` is set. -/
theorem retryRouter_c1_counterexample :
    c1CexState.status = some ⟨none, some ⟨"", none⟩⟩ ∧
    c1CexState.iterations < 3 ∧
    retryRouter c1CexState = Except.ok Route.END :=
  ⟨rfl, by decide, rfl⟩

/-- C1 (amended): for every state whose `status` is defined, the router
transitions to DONE iff `status.failure` is unset, or its `reason` is the
empty string, or `iterations >= 3`; in every other case (failure set with a
nonempty reason and `iterations < 3`) it transitions back to the Solution
Generator. -/
theorem retryRouter_c1_amended (s : State) (st : Status)
    (h : s.status = some st) :
    (retryRouter s = Except.ok Route.END ↔
      (st.failure = none ∨ (∃ f, st.failure = some f ∧ f.reason = "") ∨
        3 ≤ s.iterations)) ∧
    (retryRouter s = Except.ok Route.call_model ↔
      ((∃ f, st.failure = some f ∧ f.reason ≠ "") ∧ s.iterations < 3)) := by
  simp only [retryRouter, h]
  rcases hf : st.failure with _ | f
  · simp [strTruthy]
  · by_cases hr : f.reason = ""
    · simp [strTruthy, hr]
    · by_cases hi : 3 ≤ s.iterations
      · simp [strTruthy, hr, hi]
      · simp [strTruthy, hr, hi]
        omega

/-- Witness for C1 (amended): on a state with a nonempty failure reason and
one iteration, the router loops back to the generator. -/
theorem retryRouter_c1_amended_witness :
    retryRouter ⟨[], "", some ⟨none,
        some ⟨"The code is not valid", none⟩⟩, none, none, 1, []⟩ =
      Except.ok Route.call_model :=
  ((retryRouter_c1_amended _ ⟨none, some ⟨"The code is not valid", none⟩⟩
      rfl).2).mpr ⟨⟨_, rfl, by decide⟩, by decide⟩

/-- C2: in every run started by `main` that completes without an error, the
final `iterations` equals the number of executions of the Solution
Generator node (each contributing exactly 1 through the sum reducer), and
it never exceeds 3. -/
theorem run_iterations_c2 (o : Oracle) (h : (run o).error = none) :
    (run o).finalState.iterations =
      (run o).trace.count NodeTag.generate_code ∧
    (run o).finalState.iterations ≤ 3 := by
  obtain ⟨sols, tcs, best, -, -, -, htr, hfs⟩ :=
    runLoop_ok_inv (show runLoop o (3 + 1) initState = run o from rfl) h
  rw [hfs, stepState_iterations, htr]
  exact ⟨rfl, by decide⟩

/-- Witness for C2: the well-behaved gateway completes a run. -/
theorem run_iterations_c2_witness :
    (run okOracle).finalState.iterations =
      (run okOracle).trace.count NodeTag.generate_code ∧
    (run okOracle).finalState.iterations ≤ 3 :=
  run_iterations_c2 okOracle rfl

/-- C3: on every input state the validator reports success: `failure` is
unset and `success` is `{code, imports, prefix}` copied field-for-field
(through optional chaining) from `bestSolution`; in particular, whenever a
best solution is present, its three fields are copied verbatim. -/
theorem validateCode_c3 (s : State) :
    validateCode s =
      { status := some ⟨some ⟨s.bestSolution.map Candidate.code,
          s.bestSolution.map Candidate.imports,
          s.bestSolution.map Candidate.pfx⟩, none⟩ } ∧
    ∀ c, s.bestSolution = some c →
      validateCode s =
        { status := some ⟨some ⟨some c.code, some c.imports, some c.pfx⟩,
            none⟩ } := by
  refine ⟨rfl, fun c hc => ?_⟩
  simp [validateCode, validateCodeWith, hc]

/-- Witness for C3: at a state carrying `sampleCandidate` as best solution,
the validator copies its fields into `status.success`. -/
theorem validateCode_c3_witness :
    validateCode c3State =
      { status := some ⟨some ⟨some sampleCandidate.code,
          some sampleCandidate.imports, some sampleCandidate.pfx⟩,
          none⟩ } :=
  (validateCode_c3 c3State).2 sampleCandidate rfl

/-- C4: within one run the pooled lists only grow. Each generator merge
appends its new items after all previously accumulated ones (leaving the
other list untouched), and over any run segment — from any state, for any
gateway, with any fuel — the final pools extend the initial ones; no merge
step removes or replaces an existing element. -/
theorem generationPool_grows_c4 (o : Oracle) (fuel : Nat) (s : State) :
    (∀ sols, solutionsOf (applyUpdate s (mkGenUpdate sols)) =
        solutionsOf s ++ sols ∧
      testCasesOf (applyUpdate s (mkGenUpdate sols)) = testCasesOf s) ∧
    (∀ tcs, testCasesOf (applyUpdate s (mkTestUpdate tcs)) =
        testCasesOf s ++ tcs ∧
      solutionsOf (applyUpdate s (mkTestUpdate tcs)) = solutionsOf s) ∧
    ListGrows (solutionsOf s) (solutionsOf (runLoop o fuel s).finalState) ∧
    ListGrows (testCasesOf s) (testCasesOf (runLoop o fuel s).finalState) :=
  ⟨fun sols => ⟨applyGen_solutionsOf s sols, applyGen_testCasesOf s sols⟩,
   fun tcs => ⟨applyTest_testCasesOf s tcs, applyTest_solutionsOf s tcs⟩,
   (runLoop_grows o fuel s).1, (runLoop_grows o fuel s).2⟩

/-- C5: the code contradicts the claim (and its own declared types): on the
failure branch the validator produces `{reason: "The code is not valid"}`
with NO `code` field, although the `status` channel's TS type and the
node's own pseudocode comment require `{reason, code}`. -/
theorem validateCode_failure_c5 (s : State) :
    validateCodeWith false s =
      { status := some ⟨none, some ⟨"The code is not valid", none⟩⟩ } ∧
    ∀ st f, (validateCodeWith false s).status = some st →
      st.failure = some f → f.code = none := by
  refine ⟨rfl, fun st f hst hf => ?_⟩
  have h0 : some (⟨none, some ⟨"The code is not valid", none⟩⟩ : Status) =
      some st := by rw [← hst]; rfl
  injection h0 with h1
  rw [← h1] at hf
  injection hf with h2
  rw [← h2]

/-- Witness for C5: at a concrete state the failure record produced by the
validator's failure branch carries no `code`. -/
theorem validateCode_failure_c5_witness :
    validateCodeWith false c3State =
      { status := some ⟨none, some ⟨"The code is not valid", none⟩⟩ } ∧
    (⟨"The code is not valid", none⟩ : FailureStatus).code = none :=
  ⟨(validateCode_failure_c5 c3State).1,
   (validateCode_failure_c5 c3State).2 _ _ rfl rfl⟩

/-- C6 counterexample: a complete error-free run in which the ranker's
gateway response is a candidate absent from `generationPool.solutions`; the
run ends with that candidate as `bestSolution`, so `bestSolution` is NOT
always an element of the accumulated solutions. -/
theorem rank_c6_counterexample :
    (run c6Oracle).error = none ∧
    (run c6Oracle).finalState.bestSolution = some otherCandidate ∧
    otherCandidate ∉ solutionsOf (run c6Oracle).finalState :=
  ⟨rfl, rfl, by decide⟩

/-- C6 (amended): `bestSolution` written by the ranker is exactly the
schema-validated candidate contained in the gateway's rank response; the
node performs no membership check against `generationPool.solutions`, so
the written candidate need not belong to that list. -/
theorem rank_c6_amended (o : Oracle) (s : State) (u : PartialUpdate)
    (h : rankSolutions o s = Except.ok u) :
    ∃ j best, o.rank s = Except.ok j ∧
      parseRankSchema j = Except.ok best ∧ u = mkRankUpdate best :=
  rankSolutions_ok_inv h

/-- Witness for C6 (amended): at `initState`, the gateway of the C6
counterexample run yields `otherCandidate` as the written best solution. -/
theorem rank_c6_amended_witness :
    ∃ j best, c6Oracle.rank initState = Except.ok j ∧
      parseRankSchema j = Except.ok best ∧
      mkRankUpdate otherCandidate = mkRankUpdate best :=
  rank_c6_amended c6Oracle initState (mkRankUpdate otherCandidate) rfl

/-- C7: when the gateway throws on the first Test-Case Generator call (the
generator pass itself having succeeded), the run terminates with that error
propagated — no node catches it — `generationPool.testCases` remains empty,
and the Validator node is never invoked. -/
theorem run_gatewayFail_c7 (o : Oracle) (j : Json) (sols : List Candidate)
    (msg : String)
    (hgen : o.genCode initState = Except.ok j)
    (hparse : parseCodeGenSchema j = Except.ok sols)
    (htests : ∀ s, o.genTests s = Except.error msg) :
    (run o).error = some (RunError.gateway msg) ∧
    testCasesOf (run o).finalState = [] ∧
    NodeTag.validate_code ∉ (run o).trace := by
  have hg : generateCode o initState = Except.ok (mkGenUpdate sols) := by
    simp [generateCode, hgen, hparse]
  have ht : generateTestCases o (applyUpdate initState (mkGenUpdate sols)) =
      Except.error (RunError.gateway msg) := by
    simp [generateTestCases, htests]
  have hstep : runStep o initState =
      ([NodeTag.generate_code, NodeTag.generate_test_cases],
       applyUpdate initState (mkGenUpdate sols),
       Except.error (RunError.gateway msg)) := by
    simp [runStep, hg, ht]
  have hrun : run o =
      ⟨[NodeTag.generate_code, NodeTag.generate_test_cases],
       applyUpdate initState (mkGenUpdate sols),
       some (RunError.gateway msg)⟩ := by
    show runLoop o (3 + 1) initState = _
    simp only [runLoop, hstep]
  rw [hrun]
  refine ⟨rfl, ?_, ?_⟩
  · rw [applyGen_testCasesOf]
    rfl
  · show NodeTag.validate_code ∉
      [NodeTag.generate_code, NodeTag.generate_test_cases]
    decide

/-- Witness for C7: a gateway that succeeds on the generator call and
throws on every test-case call. -/
theorem run_gatewayFail_c7_witness :
    (run c7Oracle).error = some (RunError.gateway "gateway unreachable") ∧
    testCasesOf (run c7Oracle).finalState = [] ∧
    NodeTag.validate_code ∉ (run c7Oracle).trace :=
  run_gatewayFail_c7 c7Oracle
    (Json.obj [("solutions", Json.arr [encodeCandidate sampleCandidate])])
    [sampleCandidate] "gateway unreachable" rfl rfl (fun _ => rfl)

/-- C8: the two partial updates produced by the parallel branches after a
generator pass — the Test-Case Generator's (testCases plus a log message)
and the Ranker's (bestSolution) — merge through the per-field reducers to
the same state in either order: the result is independent of which branch
completes first. -/
theorem parallel_merge_comm_c8 (o : Oracle) (s1 : State)
    (u2 u3 : PartialUpdate)
    (h2 : generateTestCases o s1 = Except.ok u2)
    (h3 : rankSolutions o s1 = Except.ok u3) :
    applyUpdate (applyUpdate s1 u2) u3 =
      applyUpdate (applyUpdate s1 u3) u2 := by
  obtain ⟨j2, tcs, -, -, rfl⟩ := generateTestCases_ok_inv h2
  obtain ⟨j3, best, -, -, rfl⟩ := rankSolutions_ok_inv h3
  rfl

/-- Witness for C8: both merge orders coincide on concrete branch outputs
of the well-behaved gateway. -/
theorem parallel_merge_comm_c8_witness :
    applyUpdate (applyUpdate
        (applyUpdate initState (mkGenUpdate [sampleCandidate]))
        (mkTestUpdate [sampleTestCase])) (mkRankUpdate sampleCandidate) =
      applyUpdate (applyUpdate
        (applyUpdate initState (mkGenUpdate [sampleCandidate]))
        (mkRankUpdate sampleCandidate)) (mkTestUpdate [sampleTestCase]) :=
  parallel_merge_comm_c8 okOracle
    (applyUpdate initState (mkGenUpdate [sampleCandidate]))
    (mkTestUpdate [sampleTestCase]) (mkRankUpdate sampleCandidate) rfl rfl

/-- C9: every element the Test-Case Generator appends to
`generationPool.testCases` comes, element by element, from the gateway's
schema-checked `testCases` array: each appended record is parsed from a
JSON object whose `testCode` and `prefix` fields are strings copied
verbatim into a `{testCode, prefix}` record — in every run. -/
theorem testCases_shape_c9 (o : Oracle) (s : State) (u : PartialUpdate)
    (h : generateTestCases o s = Except.ok u) :
    ∃ fields xs tcs,
      o.genTests s = Except.ok (Json.obj fields) ∧
      lookupField fields "testCases" = some (Json.arr xs) ∧
      u = mkTestUpdate tcs ∧
      List.Forall₂ jsonTestCaseShape xs tcs := by
  obtain ⟨j, tcs, hj, hp, rfl⟩ := generateTestCases_ok_inv h
  obtain ⟨fields, xs, rfl, hl, hall⟩ := parseTestCaseSchema_ok_inv hp
  exact ⟨fields, xs, tcs, hj, hl, rfl, hall⟩

/-- Witness for C9: the well-behaved gateway's test-case response parses
into `[sampleTestCase]`, shape-checked field by field. -/
theorem testCases_shape_c9_witness :
    ∃ fields xs tcs,
      okOracle.genTests initState = Except.ok (Json.obj fields) ∧
      lookupField fields "testCases" = some (Json.arr xs) ∧
      mkTestUpdate [sampleTestCase] = mkTestUpdate tcs ∧
      List.Forall₂ jsonTestCaseShape xs tcs :=
  testCases_shape_c9 okOracle initState (mkTestUpdate [sampleTestCase]) rfl

/-- C10: the validator is total on a state with `bestSolution` null: it
does not error and still returns a success status whose `code`, `imports`
and `prefix` fields are all undefined rather than copied from a
candidate. -/
theorem validateCode_nullBest_c10 (s : State) (h : s.bestSolution = none) :
    validateCode s =
      { status := some ⟨some ⟨none, none, none⟩, none⟩ } := by
  simp [validateCode, validateCodeWith, h]

/-- Witness for C10: `main`'s initial state has no best solution, and the
validator returns an all-undefined success on it. -/
theorem validateCode_nullBest_c10_witness :
    validateCode initState =
      { status := some ⟨some ⟨none, none, none⟩, none⟩ } :=
  validateCode_nullBest_c10 initState rfl
